import Mathlib

/-!
A shallow embedding of the snake game in `src/python_game.py`.

Grid cells and direction vectors are pairs of integers, as the Python code
uses tuples of ints.  The `Snake` structure carries the three mutable fields
of the Python `Snake` class (`body`, `direction`, `grow`); each method becomes
a function from the old state to the new state.  Methods that index
`self.body[0]` raise in Python when the body is empty, so their embeddings
return `Option`, with `none` for that error case.  The `random.randint` draws
of `generate_food` are modelled by an explicit stream `rand : Nat → Cell`
together with a fuel bound on the `while True` loop.  The per-frame game
logic of `game_loop` (move, collision check, eat check, food regeneration,
score update) is embedded as `tick`; the per-frame event handling (one
`change_direction` call per queued key event) as `process_events`.
-/

/-- A grid cell or direction vector: a pair of integers, as the Python
`(x, y)` tuples. -/
abbrev Cell := Int × Int

/-- `WINDOW_WIDTH = 600` (python_game.py line 15). -/
def WINDOW_WIDTH : Int := 600

/-- `WINDOW_HEIGHT = 400` (line 16). -/
def WINDOW_HEIGHT : Int := 400

/-- `GRID_SIZE = 20` (line 17). -/
def GRID_SIZE : Int := 20

/-- `GRID_WIDTH = WINDOW_WIDTH // GRID_SIZE` (line 18); both operands are
positive so Python floor division agrees with `Int` division. -/
def GRID_WIDTH : Int := WINDOW_WIDTH / GRID_SIZE

/-- `GRID_HEIGHT = WINDOW_HEIGHT // GRID_SIZE` (line 19). -/
def GRID_HEIGHT : Int := WINDOW_HEIGHT / GRID_SIZE

/-- `UP = (0, -1)` (line 30). -/
def UP : Cell := (0, -1)

/-- `DOWN = (0, 1)` (line 31). -/
def DOWN : Cell := (0, 1)

/-- `LEFT = (-1, 0)` (line 32). -/
def LEFT : Cell := (-1, 0)

/-- `RIGHT = (1, 0)` (line 33). -/
def RIGHT : Cell := (1, 0)

/-- The mutable state of the Python `Snake` class: `self.body`,
`self.direction`, `self.grow`. -/
structure Snake where
  body : List Cell
  direction : Cell
  grow : Bool
  deriving DecidableEq

/-- `Snake.reset` (lines 42-50): 3-segment body centered on the grid,
heading `RIGHT`, `grow = False`. -/
def Snake.reset : Snake :=
  { body := [ (GRID_WIDTH / 2, GRID_HEIGHT / 2),
              (GRID_WIDTH / 2 - 1, GRID_HEIGHT / 2),
              (GRID_WIDTH / 2 - 2, GRID_HEIGHT / 2) ],
    direction := RIGHT,
    grow := false }

/-- `Snake.move` (lines 52-64): compute `new_head = head + direction`,
insert it at index 0, then pop the tail unless growing, in which case clear
the `grow` flag.  `self.body[0]` on an empty body raises, hence `none`. -/
def Snake.move (s : Snake) : Option Snake :=
  match s.body with
  | [] => none
  | head :: _ =>
      let new_head : Cell := (head.1 + s.direction.1, head.2 + s.direction.2)
      let body' : List Cell := new_head :: s.body
      if s.grow = false then
        some { s with body := body'.dropLast }
      else
        some { s with body := body', grow := false }

/-- `Snake.check_collision` (lines 66-79): true when the head is outside the
grid, or when the head occurs in `self.body[1:]`. -/
def Snake.check_collision (s : Snake) : Option Bool :=
  match s.body with
  | [] => none
  | head :: rest =>
      if head.1 < 0 ∨ head.1 ≥ GRID_WIDTH ∨ head.2 < 0 ∨ head.2 ≥ GRID_HEIGHT then
        some true
      else if head ∈ rest then
        some true
      else
        some false

/-- `Snake.change_direction` (lines 81-84): adopt `new_direction` unless its
componentwise negation equals the current direction. -/
def Snake.change_direction (s : Snake) (new_direction : Cell) : Snake :=
  if (new_direction.1 * -1, new_direction.2 * -1) ≠ s.direction then
    { s with direction := new_direction }
  else
    s

/-- `Snake.eat_food` (lines 86-91): when the head equals `food_pos`, set
`grow` and report `true`; otherwise report `false` with the state unchanged. -/
def Snake.eat_food (s : Snake) (food_pos : Cell) : Option (Bool × Snake) :=
  match s.body with
  | [] => none
  | head :: _ =>
      if head = food_pos then some (true, { s with grow := true })
      else some (false, s)

/-- `generate_food` (lines 93-99): repeatedly draw a random in-grid cell until
one not occupied by the snake body is found.  The `random.randint` pair drawn
on loop iteration `j` is modelled as `rand j`; `fuel` bounds the number of
iterations of the Python `while True` loop, with `none` when it is exhausted. -/
def generate_food (rand : Nat → Cell) (fuel k : Nat) (snake_body : List Cell) :
    Option Cell :=
  match fuel with
  | 0 => none
  | f + 1 =>
      let food_pos : Cell := rand k
      if food_pos ∈ snake_body then generate_food rand f (k + 1) snake_body
      else some food_pos

/-- Outcome of one pass of the game logic in `game_loop`. -/
inductive TickResult where
  | Continuing
  | Eaten
  | GameOver
  deriving DecidableEq

/-- The per-session state owned by `game_loop` (lines 166-169): the snake,
the food position and the score. -/
structure GameState where
  snake : Snake
  food_pos : Cell
  score : Nat
  deriving DecidableEq

/-- One pass of the game logic of `game_loop` (lines 189-204): `snake.move()`;
if `snake.check_collision()` the session ends (game-over screen, no eat check,
score and food untouched); otherwise if `snake.eat_food(food_pos)` the score
is incremented and a fresh food position is generated from the current body. -/
def tick (rand : Nat → Cell) (fuel k : Nat) (g : GameState) :
    Option (TickResult × GameState) :=
  match g.snake.move with
  | none => none
  | some s1 =>
      match s1.check_collision with
      | none => none
      | some true => some (TickResult.GameOver, { g with snake := s1 })
      | some false =>
          match s1.eat_food g.food_pos with
          | none => none
          | some (true, s2) =>
              match generate_food rand fuel k s2.body with
              | none => none
              | some food' =>
                  some (TickResult.Eaten,
                        { snake := s2, food_pos := food', score := g.score + 1 })
          | some (false, s2) => some (TickResult.Continuing, { g with snake := s2 })

/-- The event-handling loop of `game_loop` (lines 174-187): every queued key
event triggers its own `change_direction` call before the frame's single
`move`. -/
def process_events (s : Snake) (requests : List Cell) : Snake :=
  requests.foldl Snake.change_direction s

/-- `n` consecutive `snake.move()` calls. -/
def moveN : Nat → Snake → Option Snake
  | 0, s => some s
  | n + 1, s =>
      match s.move with
      | none => none
      | some s' => moveN n s'

/-! Helper lemmas shared by several results below. -/

/-- Any cell returned by `generate_food` is one of the random draws and is not
occupied by the snake body. -/
theorem generate_food_result (rand : Nat → Cell) (fuel : Nat) :
    ∀ (k : Nat) (snake_body : List Cell) (c : Cell),
      generate_food rand fuel k snake_body = some c →
      c ∉ snake_body ∧ ∃ j, c = rand j := by
  induction fuel with
  | zero => intro k b c h; simp [generate_food] at h
  | succ f ih =>
      intro k b c h
      simp only [generate_food] at h
      by_cases hmem : rand k ∈ b
      · simp only [if_pos hmem] at h
        exact ih (k + 1) b c h
      · simp only [if_neg hmem] at h
        obtain rfl : rand k = c := by simpa using h
        exact ⟨hmem, k, rfl⟩

/-- Unfolding of `Snake.move` on a nonempty body with `grow = false`. -/
theorem move_eq_of_not_grow (s : Snake) (hd : Cell) (rest : List Cell)
    (hbody : s.body = hd :: rest) (hg : s.grow = false) :
    s.move = some { s with
      body := (hd.1 + s.direction.1, hd.2 + s.direction.2) :: (hd :: rest).dropLast } := by
  cases s with
  | mk b d g =>
      cases hbody
      cases hg
      simp [Snake.move, List.dropLast]

/-- Unfolding of `Snake.move` on a nonempty body with `grow = true`. -/
theorem move_eq_of_grow (s : Snake) (hd : Cell) (rest : List Cell)
    (hbody : s.body = hd :: rest) (hg : s.grow = true) :
    s.move = some { s with
      body := (hd.1 + s.direction.1, hd.2 + s.direction.2) :: hd :: rest,
      grow := false } := by
  cases s with
  | mk b d g =>
      cases hbody
      cases hg
      simp [Snake.move]

/-- C5: `move()` sets the new head to the vector sum of the old head and the
current direction (no wrapping or clamping) and inserts it at the front of the
body; when `grow` is false it removes the last element, otherwise it keeps the
tail and clears `grow`; the resulting body always has at least 1 segment. -/
theorem move_spec (s : Snake) (hd : Cell) (rest : List Cell)
    (hbody : s.body = hd :: rest) :
    ∃ s', s.move = some s' ∧
      s'.direction = s.direction ∧
      s'.body.head? = some (hd.1 + s.direction.1, hd.2 + s.direction.2) ∧
      (s.grow = false →
        s'.body = ((hd.1 + s.direction.1, hd.2 + s.direction.2) :: s.body).dropLast ∧
        s'.grow = false) ∧
      (s.grow = true →
        s'.body = (hd.1 + s.direction.1, hd.2 + s.direction.2) :: s.body ∧
        s'.grow = false) ∧
      1 ≤ s'.body.length := by
  cases hg : s.grow with
  | false =>
      refine ⟨_, move_eq_of_not_grow s hd rest hbody hg, rfl, rfl, ?_, ?_, ?_⟩
      · intro _
        exact ⟨by simp [hbody, List.dropLast], hg⟩
      · intro hcontr
        simp [hg] at hcontr
      · simp
  | true =>
      refine ⟨_, move_eq_of_grow s hd rest hbody hg, rfl, rfl, ?_, ?_, ?_⟩
      · intro hcontr
        simp [hg] at hcontr
      · intro _
        exact ⟨by simp [hbody], rfl⟩
      · simp

/-- Witness for `move_spec` at the starting snake. -/
theorem move_spec_witness :
    ∃ s', Snake.reset.move = some s' ∧
      s'.direction = Snake.reset.direction ∧
      s'.body.head? = some ((15 : Int) + Snake.reset.direction.1,
                            (10 : Int) + Snake.reset.direction.2) ∧
      (Snake.reset.grow = false →
        s'.body = (((15 : Int) + Snake.reset.direction.1,
                    (10 : Int) + Snake.reset.direction.2) :: Snake.reset.body).dropLast ∧
        s'.grow = false) ∧
      (Snake.reset.grow = true →
        s'.body = ((15 : Int) + Snake.reset.direction.1,
                   (10 : Int) + Snake.reset.direction.2) :: Snake.reset.body ∧
        s'.grow = false) ∧
      1 ≤ s'.body.length :=
  move_spec Snake.reset (15, 10) [(14, 10), (13, 10)] (by decide)

/-- C6: `checkCollision()` reports a collision exactly when the head lies
outside the `[0, GRID_WIDTH) × [0, GRID_HEIGHT)` grid or equals a non-head
segment; in particular a lone segment at the origin heading left collides
after one move. -/
theorem check_collision_spec (s : Snake) (hd : Cell) (rest : List Cell)
    (hbody : s.body = hd :: rest) :
    (s.check_collision = some true ↔
      (¬ (0 ≤ hd.1 ∧ hd.1 < GRID_WIDTH ∧ 0 ≤ hd.2 ∧ hd.2 < GRID_HEIGHT) ∨
        hd ∈ rest)) ∧
    Option.bind
        (Snake.move { body := [(0, 0)], direction := LEFT, grow := false })
        Snake.check_collision = some true := by
  refine ⟨?_, by decide⟩
  by_cases h1 : hd.1 < 0 ∨ hd.1 ≥ GRID_WIDTH ∨ hd.2 < 0 ∨ hd.2 ≥ GRID_HEIGHT
  · simp only [Snake.check_collision, hbody, if_pos h1]
    constructor
    · intro _
      exact Or.inl (by omega)
    · intro _
      trivial
  · by_cases h2 : hd ∈ rest
    · simp only [Snake.check_collision, hbody, if_neg h1, if_pos h2]
      constructor
      · intro _
        exact Or.inr h2
      · intro _
        trivial
    · simp only [Snake.check_collision, hbody, if_neg h1, if_neg h2]
      constructor
      · intro hcontr
        simp at hcontr
      · rintro (hout | hmem)
        · exact absurd hout (by omega)
        · exact absurd hmem h2

/-- Witness for `check_collision_spec`: a head at `(-1, 0)` is a wall
collision. -/
theorem check_collision_spec_witness :
    (Snake.check_collision { body := [(-1, 0)], direction := LEFT, grow := false }
        = some true) ∧
    Option.bind
        (Snake.move { body := [(0, 0)], direction := LEFT, grow := false })
        Snake.check_collision = some true := by
  have h := check_collision_spec
    { body := [(-1, 0)], direction := LEFT, grow := false } (-1, 0) [] rfl
  exact ⟨h.1.mpr (Or.inl (by decide)), h.2⟩

/-- C7: `eatFood(pos)` succeeds and sets `grow` exactly when the head equals
`pos`, and otherwise leaves the state unchanged; after a success the next
`move()` lengthens the body by exactly 1 and clears `grow`. -/
theorem eat_food_spec (s : Snake) (hd : Cell) (rest : List Cell) (pos : Cell)
    (hbody : s.body = hd :: rest) :
    (hd = pos →
      s.eat_food pos = some (true, { s with grow := true }) ∧
      ∃ s3, Snake.move { s with grow := true } = some s3 ∧
        s3.body.length = s.body.length + 1 ∧ s3.grow = false) ∧
    (hd ≠ pos → s.eat_food pos = some (false, s)) := by
  constructor
  · intro heq
    constructor
    · simp [Snake.eat_food, hbody, heq]
    · refine ⟨_, move_eq_of_grow { s with grow := true } hd rest (by simp [hbody]) rfl,
        ?_, rfl⟩
      simp [hbody]
  · intro hne
    simp [Snake.eat_food, hbody, hne]

/-- Witness for `eat_food_spec`: the starting snake eating at its own head
cell, and not eating at a distant cell. -/
theorem eat_food_spec_witness :
    (Snake.reset.eat_food (15, 10) = some (true, { Snake.reset with grow := true }) ∧
      ∃ s3, Snake.move { Snake.reset with grow := true } = some s3 ∧
        s3.body.length = Snake.reset.body.length + 1 ∧ s3.grow = false) ∧
    Snake.reset.eat_food (0, 0) = some (false, Snake.reset) := by
  refine ⟨(eat_food_spec Snake.reset (15, 10) [(14, 10), (13, 10)] (15, 10)
    (by decide)).1 rfl, ?_⟩
  exact (eat_food_spec Snake.reset (15, 10) [(14, 10), (13, 10)] (0, 0)
    (by decide)).2 (by decide)

/-- C8: with `grow` false throughout (no eat), any number of `move()` calls
keeps the body length constant. -/
theorem constant_length (n : Nat) (s : Snake) (hg : s.grow = false)
    (hne : s.body ≠ []) :
    ∃ s', moveN n s = some s' ∧ s'.body.length = s.body.length ∧
      s'.grow = false := by
  induction n generalizing s with
  | zero => exact ⟨s, rfl, rfl, hg⟩
  | succ n ih =>
      obtain ⟨hd, rest, hbody⟩ := List.exists_cons_of_ne_nil hne
      have hmv := move_eq_of_not_grow s hd rest hbody hg
      obtain ⟨s', h1, h2, h3⟩ :=
        ih { s with
              body := (hd.1 + s.direction.1, hd.2 + s.direction.2) ::
                (hd :: rest).dropLast }
          hg (by simp)
      refine ⟨s', ?_, ?_, h3⟩
      · simp only [moveN, hmv]
        exact h1
      · rw [h2]
        simp [hbody, List.dropLast]

/-- Witness for `constant_length`: five moves of the starting snake. -/
theorem constant_length_witness :
    ∃ s', moveN 5 Snake.reset = some s' ∧
      s'.body.length = Snake.reset.body.length ∧ s'.grow = false :=
  constant_length 5 Snake.reset rfl (by decide)

/-- C3: `changeDirection(d)` sets the direction to `d` unless `d` is the exact
componentwise negation of the current direction, in which case it is ignored;
it mutates the direction only, and when `d` was the exact opposite the
following `move()` never puts the head on the previous second segment. -/
theorem change_direction_spec (s : Snake) (d : Cell) :
    (s.change_direction d).body = s.body ∧
    (s.change_direction d).grow = s.grow ∧
    ((s.change_direction d).direction =
      if d = (-s.direction.1, -s.direction.2) then s.direction else d) ∧
    (∀ hd snd rest, s.body = hd :: snd :: rest →
      (s.direction = UP ∨ s.direction = DOWN ∨
        s.direction = LEFT ∨ s.direction = RIGHT) →
      snd = (hd.1 - s.direction.1, hd.2 - s.direction.2) →
      d = (-s.direction.1, -s.direction.2) →
      ∀ s', (s.change_direction d).move = some s' →
        s'.body.head? ≠ some snd) := by
  have hiff : (((-d.1, -d.2) : Cell) = s.direction) ↔
      d = (-s.direction.1, -s.direction.2) := by
    constructor <;> intro h <;> simp [Prod.ext_iff] at h ⊢ <;> omega
  refine ⟨?_, ?_, ?_, ?_⟩
  · by_cases hc : ((-d.1, -d.2) : Cell) = s.direction <;>
      simp [Snake.change_direction, hc]
  · by_cases hc : ((-d.1, -d.2) : Cell) = s.direction <;>
      simp [Snake.change_direction, hc]
  · by_cases hc : ((-d.1, -d.2) : Cell) = s.direction
    · have hd' : d = (-s.direction.1, -s.direction.2) := hiff.mp hc
      simp [Snake.change_direction, hc, hd']
    · have hd' : ¬ d = (-s.direction.1, -s.direction.2) := fun h => hc (hiff.mpr h)
      simp [Snake.change_direction, hc, hd']
  · intro hd snd rest hbody hdir hsnd hopp s' hmv
    have hcd : s.change_direction d = s := by
      simp [Snake.change_direction, hiff.mpr hopp]
    rw [hcd] at hmv
    have hne : ((hd.1 + s.direction.1, hd.2 + s.direction.2) : Cell) ≠ snd := by
      rw [hsnd]
      intro hcontr
      have h1 : hd.1 + s.direction.1 = hd.1 - s.direction.1 :=
        congrArg Prod.fst hcontr
      have h2 : hd.2 + s.direction.2 = hd.2 - s.direction.2 :=
        congrArg Prod.snd hcontr
      have hz1 : s.direction.1 = 0 := by omega
      have hz2 : s.direction.2 = 0 := by omega
      rcases hdir with h | h | h | h <;> rw [h] at hz1 hz2 <;>
        revert hz1 hz2 <;> decide
    cases hg : s.grow with
    | false =>
        rw [move_eq_of_not_grow s hd (snd :: rest) hbody hg] at hmv
        obtain rfl := Option.some.inj hmv
        intro hh
        exact hne (Option.some.inj hh)
    | true =>
        rw [move_eq_of_grow s hd (snd :: rest) hbody hg] at hmv
        obtain rfl := Option.some.inj hmv
        intro hh
        exact hne (Option.some.inj hh)

/-- Witness for `change_direction_spec`: the starting snake receiving a Left
request while heading Right keeps heading Right, and its next move lands on
(16,10), not on the second segment (14,10). -/
theorem change_direction_spec_witness :
    (Snake.reset.change_direction LEFT).direction = RIGHT ∧
    (Snake.reset.change_direction LEFT).body = Snake.reset.body ∧
    ({ body := [(16, 10), (15, 10), (14, 10)], direction := RIGHT,
       grow := false } : Snake).body.head? ≠ some ((14, 10) : Cell) := by
  have h := change_direction_spec Snake.reset LEFT
  refine ⟨?_, h.1, ?_⟩
  · have h3 := h.2.2.1
    rw [if_pos (by decide)] at h3
    exact h3
  · have h4 := h.2.2.2 (15, 10) (14, 10) [(13, 10)] rfl
      (Or.inr (Or.inr (Or.inr rfl))) (by decide) (by decide)
      { body := [(16, 10), (15, 10), (14, 10)], direction := RIGHT, grow := false }
      (by decide)
    exact h4

/-- C9: whenever `generate_food` returns, its result is inside the grid
(given that every random draw respects the `randint` bounds) and is not a
member of the occupied-cell sequence. -/
theorem generate_food_spec (rand : Nat → Cell) (fuel k : Nat)
    (occupied : List Cell) (c : Cell)
    (hrand : ∀ j, 0 ≤ (rand j).1 ∧ (rand j).1 < GRID_WIDTH ∧
      0 ≤ (rand j).2 ∧ (rand j).2 < GRID_HEIGHT)
    (h : generate_food rand fuel k occupied = some c) :
    (0 ≤ c.1 ∧ c.1 < GRID_WIDTH ∧ 0 ≤ c.2 ∧ c.2 < GRID_HEIGHT) ∧
      c ∉ occupied := by
  obtain ⟨hmem, j, rfl⟩ := generate_food_result rand fuel k occupied c h
  exact ⟨hrand j, hmem⟩

/-- Witness for `generate_food_spec`: the constant draw (0,0) against an
occupied list not containing it. -/
theorem generate_food_spec_witness :
    (0 ≤ (((0, 0) : Cell)).1 ∧ (((0, 0) : Cell)).1 < GRID_WIDTH ∧
      0 ≤ (((0, 0) : Cell)).2 ∧ (((0, 0) : Cell)).2 < GRID_HEIGHT) ∧
      ((0, 0) : Cell) ∉ ([(5, 5)] : List Cell) :=
  generate_food_spec (fun _ => (0, 0)) 1 0 [(5, 5)] (0, 0)
    (by
      intro j
      show (0 : Int) ≤ 0 ∧ (0 : Int) < GRID_WIDTH ∧ (0 : Int) ≤ 0 ∧
        (0 : Int) < GRID_HEIGHT
      decide)
    (by decide)

/-- C4: on a tick whose post-move collision check fires, the result is
`GameOver`, the eat check is skipped, and the score and food position are
exactly what they were before the tick. -/
theorem collision_tick (rand : Nat → Cell) (fuel k : Nat) (g : GameState)
    (s1 : Snake) (hmv : g.snake.move = some s1)
    (hcol : s1.check_collision = some true) :
    tick rand fuel k g =
      some (TickResult.GameOver,
        { snake := s1, food_pos := g.food_pos, score := g.score }) := by
  simp only [tick, hmv, hcol]

/-- Witness for `collision_tick`: a lone snake at the origin walking into the
left wall, with food (5,5) and score 7 untouched. -/
theorem collision_tick_witness :
    tick (fun _ => (0, 0)) 1 0
        { snake := { body := [(0, 0)], direction := LEFT, grow := false },
          food_pos := (5, 5), score := 7 } =
      some (TickResult.GameOver,
        { snake := { body := [(-1, 0)], direction := LEFT, grow := false },
          food_pos := (GameState.food_pos
            { snake := { body := [(0, 0)], direction := LEFT, grow := false },
              food_pos := (5, 5), score := 7 }),
          score := (GameState.score
            { snake := { body := [(0, 0)], direction := LEFT, grow := false },
              food_pos := (5, 5), score := 7 }) }) :=
  collision_tick (fun _ => (0, 0)) 1 0
    { snake := { body := [(0, 0)], direction := LEFT, grow := false },
      food_pos := (5, 5), score := 7 }
    { body := [(-1, 0)], direction := LEFT, grow := false }
    (by decide) (by decide)

/-- Evaluation of `Snake.check_collision` on a known nonempty body. -/
theorem check_collision_cons (s : Snake) (head : Cell) (rest2 : List Cell)
    (h : s.body = head :: rest2) :
    s.check_collision =
      if head.1 < 0 ∨ head.1 ≥ GRID_WIDTH ∨ head.2 < 0 ∨ head.2 ≥ GRID_HEIGHT then
        some true
      else if head ∈ rest2 then
        some true
      else
        some false := by
  cases s with
  | mk b d g => cases h; rfl

/-- A four-segment snake curled around a 2x2 square, about to step onto its
own tail cell. -/
def loopSnake : Snake :=
  { body := [(0, 0), (1, 0), (1, 1), (0, 1)], direction := DOWN, grow := false }

/-- C1 counterexample: `loopSnake` has `grow` false, 4 segments, and its
computed new head `(0,1)` equals the current tail, yet `check_collision`
right after `move` returns `false` — the tail was already popped inside
`move`, so stepping onto the vacated tail cell is not a collision. -/
theorem tail_cell_collision_cex :
    loopSnake.grow = false ∧
    2 ≤ loopSnake.body.length ∧
    loopSnake.body.getLast? = some ((0, 1) : Cell) ∧
    (loopSnake.body.head?.map
      (fun h => ((h.1 + loopSnake.direction.1, h.2 + loopSnake.direction.2) : Cell)))
      = some ((0, 1) : Cell) ∧
    Option.bind loopSnake.move Snake.check_collision = some false := by
  decide

/-- C1 (amended): a `move()` whose computed new head equals the currently
occupied tail cell is followed by `checkCollision()` returning FALSE (not
true), for every snake with `grow` false, at least 2 pairwise-distinct
segments, and the tail cell inside the grid: `move` pops the tail before the
check runs, so the about-to-be-vacated cell does not count as a
self-collision. -/
theorem tail_cell_no_collision (s : Snake) (hd t : Cell) (rest : List Cell)
    (hbody : s.body = hd :: rest)
    (hlen : 2 ≤ s.body.length)
    (hg : s.grow = false)
    (hnd : s.body.Nodup)
    (htail : s.body.getLast? = some t)
    (hhit : ((hd.1 + s.direction.1, hd.2 + s.direction.2) : Cell) = t)
    (hx0 : 0 ≤ t.1) (hx1 : t.1 < GRID_WIDTH)
    (hy0 : 0 ≤ t.2) (hy1 : t.2 < GRID_HEIGHT) :
    Option.bind s.move Snake.check_collision = some false := by
  have hmv := move_eq_of_not_grow s hd rest hbody hg
  rw [hhit] at hmv
  rw [hmv]
  show Snake.check_collision { s with body := t :: (hd :: rest).dropLast } = some false
  have hsplit : (hd :: rest).dropLast ++ [t] = hd :: rest := by
    apply List.dropLast_append_getLast?
    rw [← hbody]
    exact htail
  have hnd2 : ((hd :: rest).dropLast ++ [t]).Nodup := by
    rw [hsplit, ← hbody]
    exact hnd
  have hnotmem : t ∉ (hd :: rest).dropLast := by
    intro hm
    exact (List.nodup_append.mp hnd2).2.2 hm (by simp)
  rw [check_collision_cons _ t ((hd :: rest).dropLast) rfl]
  rw [if_neg (by omega), if_neg hnotmem]

/-- Witness for `tail_cell_no_collision` at `loopSnake`. -/
theorem tail_cell_no_collision_witness :
    Option.bind loopSnake.move Snake.check_collision = some false :=
  tail_cell_no_collision loopSnake (0, 0) (0, 1) [(1, 0), (1, 1), (0, 1)]
    rfl (by decide) rfl (by decide) (by decide) (by decide)
    (by decide) (by decide) (by decide) (by decide)

/-- A tick that passes the collision check and eats: the score is incremented
and the food regenerated from the just-moved body. -/
theorem eat_tick (rand : Nat → Cell) (fuel k : Nat) (g : GameState)
    (s1 s2 : Snake) (food' : Cell)
    (hmv : g.snake.move = some s1) (hcol : s1.check_collision = some false)
    (heat : s1.eat_food g.food_pos = some (true, s2))
    (hgen : generate_food rand fuel k s2.body = some food') :
    tick rand fuel k g =
      some (TickResult.Eaten,
        { snake := s2, food_pos := food', score := g.score + 1 }) := by
  simp only [tick, hmv, hcol, heat, hgen]

/-- A tick that eats but exhausts the food-generation fuel yields no result. -/
theorem eat_tick_none (rand : Nat → Cell) (fuel k : Nat) (g : GameState)
    (s1 s2 : Snake)
    (hmv : g.snake.move = some s1) (hcol : s1.check_collision = some false)
    (heat : s1.eat_food g.food_pos = some (true, s2))
    (hgen : generate_food rand fuel k s2.body = none) :
    tick rand fuel k g = none := by
  simp only [tick, hmv, hcol, heat, hgen]

/-- The starting session of the end-to-end scenario: freshly reset snake,
food at (16,10), score 0. -/
def start_state : GameState :=
  { snake := Snake.reset, food_pos := (16, 10), score := 0 }

/-- The state actually produced by one tick of `start_state` when the first
random draw is (13,10). -/
def first_tick_result : GameState :=
  { snake := { body := [(16, 10), (15, 10), (14, 10)],
               direction := RIGHT, grow := true },
    food_pos := (13, 10), score := 1 }

/-- C2 counterexample: one tick of the starting session with food at (16,10)
leaves the body at 3 segments, not 4 (growth is only pending), and the new
food can land on (13,10), one of the 4 cells the claim says are avoided. -/
theorem first_tick_cex :
    tick (fun _ => (13, 10)) 1 0 start_state
      = some (TickResult.Eaten, first_tick_result) ∧
    first_tick_result.snake.body.length = 3 ∧
    first_tick_result.food_pos ∈
      [((16, 10) : Cell), (15, 10), (14, 10), (13, 10)] := by
  decide

/-- C2 (amended): one tick of the starting session with food at (16,10) moves
the head to (16,10), eats (result `Eaten`, score 1, growth pending), leaves
the body at its 3 pre-eat segments — the length reaches 4 only at the next
`move()` — and the newly generated food avoids the 3 currently occupied
cells (the vacated (13,10) is not excluded). -/
theorem first_tick_spec (rand : Nat → Cell) (fuel k : Nat)
    (res : TickResult) (g' : GameState)
    (h : tick rand fuel k start_state = some (res, g')) :
    res = TickResult.Eaten ∧
    g'.snake.body = [(16, 10), (15, 10), (14, 10)] ∧
    g'.snake.grow = true ∧
    g'.score = 1 ∧
    g'.food_pos ∉ g'.snake.body ∧
    ∃ s3, g'.snake.move = some s3 ∧ s3.body.length = 4 ∧ s3.grow = false := by
  have hmv : start_state.snake.move =
      some { body := [(16, 10), (15, 10), (14, 10)],
             direction := RIGHT, grow := false } := by decide
  have hcol : Snake.check_collision
      { body := [(16, 10), (15, 10), (14, 10)],
        direction := RIGHT, grow := false } = some false := by decide
  have heat : Snake.eat_food
      { body := [(16, 10), (15, 10), (14, 10)],
        direction := RIGHT, grow := false } start_state.food_pos =
      some (true,
        { body := [(16, 10), (15, 10), (14, 10)],
          direction := RIGHT, grow := true }) := by decide
  cases hgen : generate_food rand fuel k
      [((16, 10) : Cell), (15, 10), (14, 10)] with
  | none =>
      rw [eat_tick_none rand fuel k start_state _ _ hmv hcol heat hgen] at h
      exact Option.noConfusion h
  | some food' =>
      rw [eat_tick rand fuel k start_state _ _ food' hmv hcol heat hgen] at h
      injection h with hpair
      injection hpair with hres hgS
      subst hres
      subst hgS
      refine ⟨rfl, rfl, rfl, rfl, ?_, ?_⟩
      · exact (generate_food_result rand fuel k _ food' hgen).1
      · exact ⟨_, move_eq_of_grow
          { body := [(16, 10), (15, 10), (14, 10)],
            direction := RIGHT, grow := true }
          (16, 10) [(15, 10), (14, 10)] rfl rfl, rfl, rfl⟩

/-- The state produced by one tick of `start_state` when the first random
draw is (0,0). -/
def first_tick_witness_state : GameState :=
  { snake := { body := [(16, 10), (15, 10), (14, 10)],
               direction := RIGHT, grow := true },
    food_pos := (0, 0), score := 1 }

/-- Witness for `first_tick_spec` with the constant draw (0,0). -/
theorem first_tick_spec_witness :
    TickResult.Eaten = TickResult.Eaten ∧
    first_tick_witness_state.snake.body = [(16, 10), (15, 10), (14, 10)] ∧
    first_tick_witness_state.snake.grow = true ∧
    first_tick_witness_state.score = 1 ∧
    first_tick_witness_state.food_pos ∉ first_tick_witness_state.snake.body ∧
    ∃ s3, first_tick_witness_state.snake.move = some s3 ∧
      s3.body.length = 4 ∧ s3.grow = false :=
  first_tick_spec (fun _ => (0, 0)) 1 0 TickResult.Eaten
    first_tick_witness_state (by decide)

/-- C10: two direction requests processed between two consecutive moves
bypass the single-request reversal prevention: while heading Right, the
requests Up then Left are both accepted, the effective direction Left is the
exact opposite of the previous heading Right, and the following `move()`
places the head on the previous second body segment (14,10), which
`check_collision` then reports as a self-collision. -/
theorem double_request_reversal :
    Snake.reset.direction = RIGHT ∧
    (Snake.reset.change_direction UP).direction = UP ∧
    ((Snake.reset.change_direction UP).change_direction LEFT).direction = LEFT ∧
    LEFT = ((-RIGHT.1, -RIGHT.2) : Cell) ∧
    process_events Snake.reset [UP, LEFT] =
      (Snake.reset.change_direction UP).change_direction LEFT ∧
    Snake.reset.body[1]? = some ((14, 10) : Cell) ∧
    (process_events Snake.reset [UP, LEFT]).move =
      some { body := [(14, 10), (15, 10), (14, 10)],
             direction := LEFT, grow := false } ∧
    Option.bind (process_events Snake.reset [UP, LEFT]).move
      Snake.check_collision = some true := by
  decide
